import Mathlib

/-!
Shallow embedding of the agent-management platform backend
(src/models.py and src/app.py).

The five record types mirror the SQLAlchemy models; the database is a
record of lists, one per table, together with the autoincrement counter
of each table.  Timestamps (datetime.utcnow) are modelled as natural
numbers supplied by the caller as a clock value.  Python floats
(temperature, top_p) are modelled as rationals; they are only carried
through, never computed with.  JSON payloads are records of Option
fields: none models an absent key.  Handlers return the HTTP status
code and body together with the post-state of the database; 500-paths
return the database as of the last successful commit, which models
db.session.rollback discarding only uncommitted writes.
-/

namespace AMP

/-- models.py Model: an LLM endpoint configuration row. -/
structure Model where
  id : Nat
  name : String
  description : String
  provider : String
  base_url : String
  api_key : Option String
  model_name : String
  max_tokens : Nat
  temperature : Rat
  top_p : Rat
  created_at : Nat
  updated_at : Nat
  deriving DecidableEq

/-- models.py Agent: a named stateful agent row; model_id is a non-nullable FK. -/
structure Agent where
  id : Nat
  name : String
  description : String
  model_id : Nat
  status : String
  created_at : Nat
  updated_at : Nat
  deriving DecidableEq

/-- models.py Conversation: a chat thread row belonging to one agent. -/
structure Conversation where
  id : Nat
  agent_id : Nat
  user_id : String
  title : String
  created_at : Nat
  updated_at : Nat
  deriving DecidableEq

/-- models.py Message: one chat message row belonging to one conversation. -/
structure Message where
  id : Nat
  conversation_id : Nat
  role : String
  content : String
  timestamp : Nat
  deriving DecidableEq

/-- models.py AgentLog: an append-only audit row belonging to one agent. -/
structure AgentLog where
  id : Nat
  agent_id : Nat
  level : String
  message : String
  timestamp : Nat
  deriving DecidableEq

/-- The whole relational state: one list per table plus each table's
autoincrement counter for fresh primary keys. -/
structure DB where
  models : List Model
  agents : List Agent
  agent_logs : List AgentLog
  conversations : List Conversation
  messages : List Message
  next_model_id : Nat
  next_agent_id : Nat
  next_log_id : Nat
  next_conv_id : Nat
  next_msg_id : Nat
  deriving DecidableEq

/-- JSON body of POST /agents; none models an absent key. -/
structure AgentCreateData where
  name : Option String
  description : Option String
  model_id : Option Nat
  status : Option String
  deriving DecidableEq

/-- app.py AgentList.post: validate name, reject duplicates (409) before
looking at model_id; reading data[\x22model_id\x22] raises KeyError when the
key is absent, caught by the handler as a 500 with no rows written;
otherwise 404 for an unknown model, else insert the agent row and an
info log row and return 201 with the new record. -/
def createAgent (data : AgentCreateData) (db : DB) (now : Nat) :
    (Nat × Option Agent) × DB :=
  match data.name with
  | none => ((400, none), db)
  | some name =>
    match db.agents.find? (fun a => a.name == name) with
    | some _ => ((409, none), db)
    | none =>
      match data.model_id with
      | none => ((500, none), db)
      | some mid =>
        match db.models.find? (fun m => m.id == mid) with
        | none => ((404, none), db)
        | some _ =>
          let agent : Agent :=
            { id := db.next_agent_id
              name := name
              description := data.description.getD ""
              model_id := mid
              status := data.status.getD "inactive"
              created_at := now
              updated_at := now }
          let log : AgentLog :=
            { id := db.next_log_id
              agent_id := agent.id
              level := "info"
              message := "Agent registered: " ++ agent.name
              timestamp := now }
          ((201, some agent),
            { db with
                agents := db.agents ++ [agent]
                agent_logs := db.agent_logs ++ [log]
                next_agent_id := db.next_agent_id + 1
                next_log_id := db.next_log_id + 1 })

/-- JSON body of PUT /agents/{id}.  The extra field models any further
keys of the JSON object; the handler only ever reads name, description
and status, so extra keys are silently ignored. -/
structure AgentUpdateData where
  name : Option String
  description : Option String
  status : Option String
  extra : List (String × String)
  deriving DecidableEq

/-- The field writes of app.py AgentResource.put applied to one agent
row: each of name, description, status is written only when its key is
present; updated_at is refreshed by the ORM onupdate hook. -/
def applyAgentUpdate (data : AgentUpdateData) (now : Nat) (a : Agent) : Agent :=
  let a1 := match data.name with
    | some n => { a with name := n }
    | none => a
  let a2 := match data.description with
    | some d => { a1 with description := d }
    | none => a1
  let a3 := match data.status with
    | some s => { a2 with status := s }
    | none => a2
  { a3 with updated_at := now }

/-- app.py AgentResource.put: 404 for an unknown id, else write the
provided fields; a status key additionally appends a status-change log
row; returns 200 with the updated record. -/
def updateAgent (agent_id : Nat) (data : AgentUpdateData) (db : DB) (now : Nat) :
    (Nat × Option Agent) × DB :=
  match db.agents.find? (fun a => a.id == agent_id) with
  | none => ((404, none), db)
  | some a =>
    let a2 := applyAgentUpdate data now a
    let logs := match data.status with
      | some _ =>
          db.agent_logs ++
            [{ id := db.next_log_id
               agent_id := a.id
               level := "info"
               message := "Agent status changed to: " ++ a2.status
               timestamp := now }]
      | none => db.agent_logs
    ((200, some a2),
      { db with
          agents := db.agents.map (fun x => if x.id == agent_id then a2 else x)
          agent_logs := logs
          next_log_id := match data.status with
            | some _ => db.next_log_id + 1
            | none => db.next_log_id })

/-- Common body of app.py AgentStart.post, AgentPause.post and
AgentStop.post: 404 for an unknown id, else unconditionally set the
status, append one info log row, and return 200 with the record. -/
def setAgentStatus (new_status log_message : String) (agent_id : Nat) (db : DB) (now : Nat) :
    (Nat × Option Agent) × DB :=
  match db.agents.find? (fun a => a.id == agent_id) with
  | none => ((404, none), db)
  | some a =>
    let a2 := { a with status := new_status, updated_at := now }
    let log : AgentLog :=
      { id := db.next_log_id
        agent_id := a.id
        level := "info"
        message := log_message
        timestamp := now }
    ((200, some a2),
      { db with
          agents := db.agents.map (fun x => if x.id == agent_id then a2 else x)
          agent_logs := db.agent_logs ++ [log]
          next_log_id := db.next_log_id + 1 })

/-- app.py AgentStart.post: POST /agents/{id}/start. -/
def startAgent (agent_id : Nat) (db : DB) (now : Nat) : (Nat × Option Agent) × DB :=
  setAgentStatus "running" "Agent started" agent_id db now

/-- app.py AgentPause.post: POST /agents/{id}/pause. -/
def pauseAgent (agent_id : Nat) (db : DB) (now : Nat) : (Nat × Option Agent) × DB :=
  setAgentStatus "paused" "Agent paused" agent_id db now

/-- app.py AgentStop.post: POST /agents/{id}/stop. -/
def stopAgent (agent_id : Nat) (db : DB) (now : Nat) : (Nat × Option Agent) × DB :=
  setAgentStatus "stopped" "Agent stopped" agent_id db now

/-- app.py ModelResource.delete: 404 for an unknown id; 400 when any
agent row still references the model (model.agents nonempty); else
remove the model row and return 200. -/
def deleteModel (model_id : Nat) (db : DB) : (Nat × Option String) × DB :=
  match db.models.find? (fun m => m.id == model_id) with
  | none => ((404, none), db)
  | some m =>
    if db.agents.any (fun a => a.model_id == m.id) then
      ((400, some "Cannot delete model with associated agents"), db)
    else
      ((200, some "Model deleted successfully"),
        { db with models := db.models.filter (fun x => x.id != model_id) })

/-- app.py AgentResource.delete: 404 for an unknown id; else delete the
messages of each of the agent conversations, the conversations
themselves, the agent log rows, and finally the agent row. -/
def deleteAgent (agent_id : Nat) (db : DB) : (Nat × Option String) × DB :=
  match db.agents.find? (fun a => a.id == agent_id) with
  | none => ((404, none), db)
  | some agent =>
    let convs := db.conversations.filter (fun c => c.agent_id == agent.id)
    ((200, some "Agent deleted successfully"),
      { db with
          messages := db.messages.filter
            (fun m => !(convs.any (fun c => c.id == m.conversation_id)))
          conversations := db.conversations.filter (fun c => c.agent_id != agent.id)
          agent_logs := db.agent_logs.filter (fun l => l.agent_id != agent.id)
          agents := db.agents.filter (fun a => a.id != agent.id) })

/-- JSON body of POST /agents/{id}/chat. -/
structure ChatData where
  user_id : String
  message : String
  conversation_id : Option Nat
  deriving DecidableEq

/-- One entry of the messages array sent to the completion endpoint. -/
structure PromptMessage where
  role : String
  content : String
  deriving DecidableEq

/-- The outbound openai.ChatCompletion.create call: endpoint
configuration taken from the agent model row plus the prompt context. -/
structure CompletionRequest where
  api_base : String
  api_key : String
  model : String
  messages : List PromptMessage
  max_tokens : Nat
  temperature : Rat
  top_p : Rat
  deriving DecidableEq

/-- Success body of POST /agents/{id}/chat. -/
structure ChatOk where
  conversation_id : Nat
  response : String
  timestamp : Nat
  deriving DecidableEq

/-- Stable insertion of a message into a timestamp-sorted list: the new
message goes before the first strictly later message, so rows with equal
timestamps keep their relative table order. -/
def insertByTimestamp (m : Message) : List Message → List Message
  | [] => [m]
  | x :: xs =>
    if x.timestamp < m.timestamp then x :: insertByTimestamp m xs
    else m :: x :: xs

/-- ORDER BY timestamp ASC as a stable sort. -/
def sortByTimestamp : List Message → List Message
  | [] => []
  | x :: xs => insertByTimestamp x (sortByTimestamp xs)

/-- app.py AgentChat.post lines 507-510: the history query
Message.query.filter_by(conversation_id).order_by(timestamp.asc()).limit(20):
the FIRST twenty rows in ascending timestamp order. -/
def historyMessages (db : DB) (conversation_id : Nat) : List Message :=
  (sortByTimestamp (db.messages.filter
    (fun m => m.conversation_id == conversation_id))).take 20

/-- app.py AgentChat.post: 404 for an unknown agent; resolve or create
the conversation (new conversations get title = first 50 characters
plus an ellipsis when the message is longer than 50, the whole message
otherwise; a supplied conversation_id that is unknown or belongs to
another agent is a 404 before anything is written); commit the user
message; then dereference the agent model row (a missing row raises at
model.base_url, a 500 keeping the committed writes); build the prompt
from the history query and call the completion endpoint, an exception
there being returned verbatim as a 500 keeping the committed writes; on
success commit the assistant message and an info log row and return 200
with conversation id, reply text and timestamp.  The completion call is
a parameter. -/
def chat (complete : CompletionRequest → Except String String)
    (agent_id : Nat) (data : ChatData) (db : DB) (now : Nat) :
    (Nat × Except String ChatOk) × DB :=
  match db.agents.find? (fun a => a.id == agent_id) with
  | none => ((404, Except.error "Agent not found"), db)
  | some agent =>
    let modelOpt := db.models.find? (fun m => m.id == agent.model_id)
    let convRes : Option (Conversation × DB) :=
      match data.conversation_id with
      | some cid =>
        match db.conversations.find? (fun c => c.id == cid) with
        | none => none
        | some c => if c.agent_id == agent_id then some (c, db) else none
      | none =>
        let conv : Conversation :=
          { id := db.next_conv_id
            agent_id := agent_id
            user_id := data.user_id
            title :=
              if data.message.length > 50 then data.message.take 50 ++ "..."
              else data.message
            created_at := now
            updated_at := now }
        some (conv, { db with
                        conversations := db.conversations ++ [conv]
                        next_conv_id := db.next_conv_id + 1 })
    match convRes with
    | none =>
      ((404, Except.error "Conversation not found or does not belong to this agent"), db)
    | some (conv, db1) =>
      let user_msg : Message :=
        { id := db1.next_msg_id
          conversation_id := conv.id
          role := "user"
          content := data.message
          timestamp := now }
      let db2 := { db1 with
                     messages := db1.messages ++ [user_msg]
                     next_msg_id := db1.next_msg_id + 1 }
      match modelOpt with
      | none =>
        ((500, Except.error "AttributeError: NoneType object has no attribute base_url"), db2)
      | some model =>
        let history := historyMessages db2 conv.id
        let req : CompletionRequest :=
          { api_base := model.base_url
            api_key := model.api_key.getD "ollama"
            model := model.model_name
            messages := history.map (fun m => { role := m.role, content := m.content })
            max_tokens := model.max_tokens
            temperature := model.temperature
            top_p := model.top_p }
        match complete req with
        | Except.error e => ((500, Except.error e), db2)
        | Except.ok reply =>
          let assistant_msg : Message :=
            { id := db2.next_msg_id
              conversation_id := conv.id
              role := "assistant"
              content := reply
              timestamp := now }
          let db3 := { db2 with
                         messages := db2.messages ++ [assistant_msg]
                         next_msg_id := db2.next_msg_id + 1 }
          let log : AgentLog :=
            { id := db3.next_log_id
              agent_id := agent.id
              level := "info"
              message := "Chat with user " ++ data.user_id ++ ": " ++
                data.message.take 50 ++ "..."
              timestamp := now }
          let db4 := { db3 with
                         agent_logs := db3.agent_logs ++ [log]
                         next_log_id := db3.next_log_id + 1 }
          ((200, Except.ok
              { conversation_id := conv.id
                response := reply
                timestamp := now }), db4)

/-! Concrete database fixtures used to evaluate the handlers. -/

/-- An empty database with every autoincrement counter at 1. -/
def dbEmpty : DB :=
  { models := [], agents := [], agent_logs := [], conversations := [], messages := []
    next_model_id := 1, next_agent_id := 1, next_log_id := 1, next_conv_id := 1
    next_msg_id := 1 }

/-- A concrete model row. -/
def modelW : Model :=
  { id := 1, name := "llama", description := "", provider := "ollama"
    base_url := "http://localhost:11434/v1", api_key := none, model_name := "llama3"
    max_tokens := 4096, temperature := 7/10, top_p := 1, created_at := 0, updated_at := 0 }

/-- A concrete agent row referencing modelW. -/
def agentW : Agent :=
  { id := 1, name := "A1", description := "", model_id := 1, status := "inactive"
    created_at := 0, updated_at := 0 }

/-- A database holding one model and one agent. -/
def dbW : DB :=
  { models := [modelW], agents := [agentW], agent_logs := [], conversations := []
    messages := [], next_model_id := 2, next_agent_id := 2, next_log_id := 1
    next_conv_id := 1, next_msg_id := 1 }

/-- A concrete conversation row belonging to agentW. -/
def convW : Conversation :=
  { id := 1, agent_id := 1, user_id := "u", title := "hello", created_at := 0
    updated_at := 0 }

/-- dbW extended with one conversation of agentW. -/
def dbConv : DB :=
  { dbW with conversations := [convW], next_conv_id := 2 }

/-- Twenty-one messages m1..m21 with strictly increasing timestamps, all in
conversation 1. -/
def messagesC1 : List Message :=
  (List.range 21).map (fun i =>
    { id := i + 1, conversation_id := 1, role := "user"
      content := "m" ++ toString (i + 1), timestamp := i + 1 })

/-- dbConv extended with the 21 stored messages of conversation 1. -/
def dbC1 : DB :=
  { dbConv with messages := messagesC1, next_msg_id := 22 }

/-- A completion stub that echoes the contents of the prompt context it was
sent, joined by a bar, so the reply reveals exactly which messages were
sent to the endpoint. -/
def echoComplete : CompletionRequest → Except String String :=
  fun req => Except.ok (String.intercalate "|" (req.messages.map (fun m => m.content)))

/-- A 51-character message. -/
def msg51 : String := String.mk (List.replicate 51 'a')

/-- Fields of an agent row never touched by applyAgentUpdate: id, model_id
and created_at survive any PUT payload. -/
theorem applyAgentUpdate_frame (data : AgentUpdateData) (now : Nat) (a : Agent) :
    (applyAgentUpdate data now a).id = a.id ∧
    (applyAgentUpdate data now a).model_id = a.model_id ∧
    (applyAgentUpdate data now a).created_at = a.created_at := by
  unfold applyAgentUpdate
  rcases data.name with _ | n <;> rcases data.description with _ | d <;>
    rcases data.status with _ | s <;> simp

/-- C3: the claim says an agent-create request with a fresh name and no
model_id succeeds with 201 and status inactive (and the repository test
test_register_agent posts exactly such a body expecting 201); the handler
instead reads the model_id key unconditionally, so the absent key raises
KeyError, the catch-all returns 500, and no row is written. -/
theorem createAgent_missing_model_id_500 :
    createAgent { name := some "A1", description := none, model_id := none, status := none }
        dbEmpty 0 = ((500, none), dbEmpty) ∧ (500 : Nat) ≠ 201 := by
  exact ⟨rfl, by decide⟩

/-- C5: for every existing agent, whatever its prior status, start, pause
and stop each return 200 with the status set to running, paused, stopped
respectively, and append exactly one new AgentLog row. -/
theorem startPauseStop_always_succeed (db : DB) (agent_id now : Nat) (a : Agent)
    (h : db.agents.find? (fun x => x.id == agent_id) = some a) :
    ((startAgent agent_id db now).1.1 = 200 ∧
      (startAgent agent_id db now).1.2 = some { a with status := "running", updated_at := now } ∧
      (startAgent agent_id db now).2.agent_logs =
        db.agent_logs ++ [{ id := db.next_log_id, agent_id := a.id, level := "info"
                            message := "Agent started", timestamp := now }]) ∧
    ((pauseAgent agent_id db now).1.1 = 200 ∧
      (pauseAgent agent_id db now).1.2 = some { a with status := "paused", updated_at := now } ∧
      (pauseAgent agent_id db now).2.agent_logs =
        db.agent_logs ++ [{ id := db.next_log_id, agent_id := a.id, level := "info"
                            message := "Agent paused", timestamp := now }]) ∧
    ((stopAgent agent_id db now).1.1 = 200 ∧
      (stopAgent agent_id db now).1.2 = some { a with status := "stopped", updated_at := now } ∧
      (stopAgent agent_id db now).2.agent_logs =
        db.agent_logs ++ [{ id := db.next_log_id, agent_id := a.id, level := "info"
                            message := "Agent stopped", timestamp := now }]) := by
  simp [startAgent, pauseAgent, stopAgent, setAgentStatus, h]

/-- C5 witness: starting the concrete agent of dbW at clock 5. -/
theorem startPauseStop_always_succeed_witness :
    (startAgent 1 dbW 5).1.2 = some { agentW with status := "running", updated_at := 5 } :=
  (startPauseStop_always_succeed dbW 1 5 agentW rfl).1.2.1

/-- C6: deleting a model that some agent still references returns 400 and
leaves the database unchanged, and a 200 from model deletion can only
happen when no agent references the model. -/
theorem deleteModel_referenced_refused (db : DB) (model_id : Nat) (m : Model)
    (hm : db.models.find? (fun x => x.id == model_id) = some m)
    (ha : ∃ a ∈ db.agents, a.model_id = m.id) :
    deleteModel model_id db = ((400, some "Cannot delete model with associated agents"), db) ∧
    ∀ (db2 : DB) (mid2 : Nat), (deleteModel mid2 db2).1.1 = 200 →
      ∀ a ∈ db2.agents, a.model_id ≠ mid2 := by
  constructor
  · obtain ⟨a0, ha0, haeq⟩ := ha
    have hAny : db.agents.any (fun a => a.model_id == m.id) = true :=
      List.any_eq_true.mpr ⟨a0, ha0, by simp [haeq]⟩
    simp [deleteModel, hm, hAny]
  · intro db2 mid2 hstatus a haMem
    unfold deleteModel at hstatus
    cases hfind : db2.models.find? (fun x => x.id == mid2) with
    | none =>
      rw [hfind] at hstatus
      dsimp only at hstatus
      exact absurd hstatus (by decide)
    | some m2 =>
      rw [hfind] at hstatus
      dsimp only at hstatus
      by_cases hAny : db2.agents.any (fun x => x.model_id == m2.id) = true
      · rw [if_pos hAny] at hstatus
        dsimp only at hstatus
        exact absurd hstatus (by decide)
      · have hmid : m2.id = mid2 := by simpa using List.find?_some hfind
        intro hEq
        exact hAny (List.any_eq_true.mpr ⟨a, haMem, by simp [hEq, hmid]⟩)

/-- C6 witness: dbW holds agentW referencing model 1, so deleting model 1
is refused with 400 and the state is unchanged. -/
theorem deleteModel_referenced_refused_witness :
    deleteModel 1 dbW = ((400, some "Cannot delete model with associated agents"), dbW) :=
  (deleteModel_referenced_refused dbW 1 modelW rfl ⟨agentW, by simp [dbW], rfl⟩).1

/-- C7: deleting an existing agent succeeds and afterwards no agent, log or
conversation row carries the deleted agent id, and no message row
references any conversation that belonged to the deleted agent. -/
theorem deleteAgent_no_orphans (db : DB) (agent_id : Nat) (a : Agent)
    (h : db.agents.find? (fun x => x.id == agent_id) = some a) :
    (deleteAgent agent_id db).1.1 = 200 ∧
    (∀ x ∈ (deleteAgent agent_id db).2.agents, x.id ≠ a.id) ∧
    (∀ l ∈ (deleteAgent agent_id db).2.agent_logs, l.agent_id ≠ a.id) ∧
    (∀ c ∈ (deleteAgent agent_id db).2.conversations, c.agent_id ≠ a.id) ∧
    (∀ msg ∈ (deleteAgent agent_id db).2.messages,
      ∀ c ∈ db.conversations, c.agent_id = a.id → msg.conversation_id ≠ c.id) := by
  simp only [deleteAgent, h]
  refine ⟨trivial, ?_, ?_, ?_, ?_⟩
  · intro x hx
    have := (List.mem_filter.mp hx).2
    simpa using this
  · intro l hl
    have := (List.mem_filter.mp hl).2
    simpa using this
  · intro c hc
    have := (List.mem_filter.mp hc).2
    simpa using this
  · intro msg hmsg c hcMem hcAgent
    have hp := (List.mem_filter.mp hmsg).2
    have hcIn : c ∈ db.conversations.filter (fun x => x.agent_id == a.id) :=
      List.mem_filter.mpr ⟨hcMem, by simp [hcAgent]⟩
    simp only [Bool.not_eq_true', List.any_eq_false] at hp
    have := hp c hcIn
    simp at this
    exact fun hEq => this (hEq ▸ rfl)

/-- C7 witness: deleting agent 1 of dbConv succeeds with 200. -/
theorem deleteAgent_no_orphans_witness : (deleteAgent 1 dbConv).1.1 = 200 :=
  (deleteAgent_no_orphans dbConv 1 agentW rfl).1

/-- C9: an agent-create request whose name matches an existing agent is
answered 409 with the database unchanged, whatever the model_id field
holds, because the duplicate-name check precedes the model lookup. -/
theorem createAgent_duplicate_name_409 (db : DB) (data : AgentCreateData) (now : Nat)
    (n : String) (hname : data.name = some n)
    (hex : ∃ a ∈ db.agents, a.name = n) :
    createAgent data db now = ((409, none), db) := by
  obtain ⟨a0, ha0, hn⟩ := hex
  have hfind : (db.agents.find? (fun x => x.name == n)).isSome = true :=
    List.find?_isSome.mpr ⟨a0, ha0, by simp [hn]⟩
  obtain ⟨x, hx⟩ := Option.isSome_iff_exists.mp hfind
  simp [createAgent, hname, hx]

/-- C9 witness: recreating the name A1 of dbW with an absent model_id still
yields 409, not 404 or 500, with the state unchanged. -/
theorem createAgent_duplicate_name_409_witness :
    createAgent { name := some "A1", description := none, model_id := none, status := none }
      dbW 3 = ((409, none), dbW) :=
  createAgent_duplicate_name_409 dbW
    { name := some "A1", description := none, model_id := none, status := none } 3 "A1" rfl
    ⟨agentW, by simp [dbW], rfl⟩

/-- C10: for an existing agent, every row after a PUT keeps the id,
model_id and created_at of some pre-existing row, and payload keys other
than name, description and status are ignored: the result is independent
of the extra keys. -/
theorem updateAgent_frame (db : DB) (agent_id now : Nat) (data : AgentUpdateData) (a : Agent)
    (h : db.agents.find? (fun x => x.id == agent_id) = some a) :
    (∀ x ∈ (updateAgent agent_id data db now).2.agents,
      ∃ y ∈ db.agents, x.id = y.id ∧ x.model_id = y.model_id ∧ x.created_at = y.created_at) ∧
    (∀ e, updateAgent agent_id { data with extra := e } db now =
      updateAgent agent_id data db now) := by
  constructor
  · intro x hx
    simp only [updateAgent, h] at hx
    rw [List.mem_map] at hx
    obtain ⟨y, hy, hfy⟩ := hx
    by_cases hid : (y.id == agent_id) = true
    · rw [if_pos hid] at hfy
      refine ⟨a, List.mem_of_find?_eq_some h, ?_⟩
      obtain ⟨h1, h2, h3⟩ := applyAgentUpdate_frame data now a
      rw [← hfy]
      exact ⟨h1, h2, h3⟩
    · rw [if_neg hid] at hfy
      exact ⟨y, hy, by rw [hfy]; exact ⟨rfl, rfl, rfl⟩⟩
  · intro e
    rfl

/-- C10 witness: updating agent 1 of dbW gives the same outcome with and
without an unrecognized payload key. -/
theorem updateAgent_frame_witness :
    updateAgent 1
        { name := some "B", description := none, status := some "running"
          extra := [("bogus", "1")] } dbW 9 =
      updateAgent 1
        { name := some "B", description := none, status := some "running", extra := [] }
        dbW 9 :=
  (updateAgent_frame dbW 1 9
    { name := some "B", description := none, status := some "running", extra := [] }
    agentW rfl).2 [("bogus", "1")]

set_option maxRecDepth 8192 in
/-- C1: evaluating the chat handler on a conversation already holding 21
stored messages m1..m21 (timestamps 1..21) with the new user message
appended at timestamp 100: the prompt context sent to the completion
endpoint is the OLDEST twenty stored messages m1..m20 — the echoing
completion stub reveals it verbatim — excluding both the newest stored
message m21 and the just-appended user message, contradicting the claim
that the most recent twenty messages (including the just-appended one)
are sent.  The history query orders ascending and takes the first
twenty instead of the last twenty. -/
theorem chat_context_is_oldest_twenty :
    (chat echoComplete 1 { user_id := "u", message := "new", conversation_id := some 1 }
        dbC1 100).1.2 =
      Except.ok
        { conversation_id := 1
          response := "m1|m2|m3|m4|m5|m6|m7|m8|m9|m10|m11|m12|m13|m14|m15|m16|m17|m18|m19|m20"
          timestamp := 100 } := by
  rfl

set_option maxRecDepth 8192 in
/-- C2 counterexample: with a 51-character message the created
conversation title is the first 50 characters followed by an ellipsis,
which differs from the first 50 characters themselves, refuting the
claim that the title equals exactly the first 50 characters of the
message. -/
theorem chat_long_title_counterexample :
    ((chat (fun _ => Except.ok "hi") 1
        { user_id := "u", message := msg51, conversation_id := none } dbW 5).2.conversations.map
      (fun c => c.title) = [msg51.take 50 ++ "..."]) ∧
    msg51.take 50 ++ "..." ≠ msg51.take 50 := by
  constructor
  · rfl
  · decide

/-- C2 amended: a chat call on an existing agent with no conversation_id
creates exactly one new conversation whose title is the whole message
when it is 50 characters or shorter, and the first 50 characters
followed by the three-character ellipsis when it is longer. -/
theorem chat_new_conversation_title (complete : CompletionRequest → Except String String)
    (agent_id : Nat) (data : ChatData) (db : DB) (now : Nat) (a : Agent)
    (hAgent : db.agents.find? (fun x => x.id == agent_id) = some a)
    (hNew : data.conversation_id = none) :
    (chat complete agent_id data db now).2.conversations =
      db.conversations ++
        [{ id := db.next_conv_id, agent_id := agent_id, user_id := data.user_id,
           title := if data.message.length > 50 then data.message.take 50 ++ "..."
             else data.message,
           created_at := now, updated_at := now }] := by
  simp only [chat, hAgent, hNew]
  split
  · rfl
  · split <;> rfl

/-- C2 amended witness: a short message becomes the title unchanged. -/
theorem chat_new_conversation_title_witness :
    (chat (fun _ => Except.ok "hi") 1
        { user_id := "u", message := "hello", conversation_id := none } dbW 5).2.conversations =
      dbW.conversations ++
        [{ id := dbW.next_conv_id, agent_id := 1, user_id := "u", title := "hello",
           created_at := 5, updated_at := 5 }] :=
  chat_new_conversation_title (fun _ => Except.ok "hi") 1
    { user_id := "u", message := "hello", conversation_id := none } dbW 5 agentW rfl rfl

/-- C4 counterexample: a chat call with a conversation_id that does not
exist is answered 404, not 500 as the claim states: the handler rejects
an unknown or mismatched conversation with an early 404 return, before
and instead of the catch-all exception path. -/
theorem chat_unknown_conversation_404 :
    (chat (fun _ => Except.ok "hi") 1
      { user_id := "u", message := "m", conversation_id := some 99 } dbConv 5).1.1 = 404 ∧
    (404 : Nat) ≠ 500 := by
  exact ⟨rfl, by decide⟩

/-- C4 amended: a chat call that raises an exception — modelled by the
completion call failing with text e — returns 500 carrying e verbatim,
and the database keeps exactly the writes committed before the failure
(here the user message; the conversation row pre-existed); a supplied
conversation_id that is unknown or belongs to a different agent is
instead answered 404 with a fixed message and no database change. -/
theorem chat_error_handling (agent_id : Nat) (data : ChatData) (db : DB) (now : Nat) (a : Agent)
    (hAgent : db.agents.find? (fun x => x.id == agent_id) = some a) :
    (∀ e m cid c, db.models.find? (fun x => x.id == a.model_id) = some m →
        data.conversation_id = some cid →
        db.conversations.find? (fun x => x.id == cid) = some c →
        c.agent_id = agent_id →
        chat (fun _ => Except.error e) agent_id data db now =
          ((500, Except.error e),
            { db with
                messages := db.messages ++
                  [{ id := db.next_msg_id, conversation_id := c.id, role := "user",
                     content := data.message, timestamp := now }],
                next_msg_id := db.next_msg_id + 1 })) ∧
    (∀ (complete : CompletionRequest → Except String String) cid,
        data.conversation_id = some cid →
        (∀ c, db.conversations.find? (fun x => x.id == cid) = some c → c.agent_id ≠ agent_id) →
        chat complete agent_id data db now =
          ((404, Except.error "Conversation not found or does not belong to this agent"), db)) := by
  constructor
  · intro e m cid c hModel hCid hConv hOwn
    simp only [chat, hAgent, hCid, hConv, hModel, hOwn, beq_self_eq_true, if_true]
  · intro complete cid hCid hNone
    simp only [chat, hAgent, hCid]
    cases hConv : db.conversations.find? (fun x => x.id == cid) with
    | none => rfl
    | some c =>
      have hne : c.agent_id ≠ agent_id := hNone c hConv
      simp [hne]

/-- C4 amended witness: a failing completion call on the conversation of
dbConv yields 500 with the exception text and keeps only the committed
user message. -/
theorem chat_error_handling_witness :
    chat (fun _ => Except.error "boom") 1
        { user_id := "u", message := "hi", conversation_id := some 1 } dbConv 7 =
      ((500, Except.error "boom"),
        { dbConv with
            messages := dbConv.messages ++
              [{ id := dbConv.next_msg_id, conversation_id := convW.id, role := "user",
                 content := "hi", timestamp := 7 }],
            next_msg_id := dbConv.next_msg_id + 1 }) :=
  (chat_error_handling 1 { user_id := "u", message := "hi", conversation_id := some 1 }
      dbConv 7 agentW rfl).1 "boom" modelW 1 convW rfl rfl rfl rfl

/-- C8: a chat call on an existing conversation of the target agent never
consults the stored user_id of the conversation: two calls differing
only in the supplied user_id return the same status and body and leave
the same message table, so any user can continue any conversation of
the agent. -/
theorem chat_ignores_user_id (complete : CompletionRequest → Except String String)
    (agent_id cid : Nat) (msg u1 u2 : String) (db : DB) (now : Nat) (c : Conversation)
    (hc : db.conversations.find? (fun x => x.id == cid) = some c)
    (hOwn : c.agent_id = agent_id) :
    (chat complete agent_id { user_id := u1, message := msg, conversation_id := some cid }
        db now).1 =
      (chat complete agent_id { user_id := u2, message := msg, conversation_id := some cid }
        db now).1 ∧
    (chat complete agent_id { user_id := u1, message := msg, conversation_id := some cid }
        db now).2.messages =
      (chat complete agent_id { user_id := u2, message := msg, conversation_id := some cid }
        db now).2.messages := by
  simp only [chat, hc, hOwn, beq_self_eq_true, if_true]
  constructor <;>
    (split
     · rfl
     · split
       · rfl
       · split
         · rfl
         · rfl)

/-- C8 witness: alice and bob get the same response on conversation 1. -/
theorem chat_ignores_user_id_witness :
    (chat (fun _ => Except.ok "hi") 1
        { user_id := "alice", message := "hello", conversation_id := some 1 } dbConv 5).1 =
      (chat (fun _ => Except.ok "hi") 1
        { user_id := "bob", message := "hello", conversation_id := some 1 } dbConv 5).1 :=
  (chat_ignores_user_id (fun _ => Except.ok "hi") 1 1 "hello" "alice" "bob" dbConv 5
    convW rfl rfl).1

end AMP
